import Mathlib

/-!
Verification of the technical-signal engine of the ai-trading-advisor
repository, as implemented in `trading_advisor/advanced_trading_system.py`
(trend classification, pivot detection, entry/exit level generation, risk
sizing) and the `calculate_rsi` helper shared by `enhanced_backend.py` and
`quick_start.py`.

Prices are modelled as exact rationals (the Python code computes with IEEE
floats; no claim under study depends on rounding).  External `talib` calls
(ADX, ATR) appear in the source inside try/except blocks: the value such a
call produces is passed in as an explicit parameter (the ADX trend-strength
value as a plain rational; the ATR as an `Option`, `none` meaning the call
raised and the source falls back to 2% of the close).
-/

namespace TradingAdvisor

/-- One OHLCV bar of a price series (`timestamp` omitted: every consumer in
the verified code indexes by position, never by calendar time). -/
structure Bar where
  open_ : ℚ
  high : ℚ
  low : ℚ
  close : ℚ
  volume : ℚ
  deriving DecidableEq, Repr

/-- Default bar used only to totalise `iloc[-1]`-style access; every theorem
that needs the last bar assumes the series is long enough for the access to
be in bounds, exactly as the Python code presupposes. -/
def defaultBar : Bar := ⟨0, 0, 0, 0, 0⟩

/-- `data['Close'].iloc[-1]`: the close of the last bar. -/
def lastClose (data : List Bar) : ℚ := (data.getLastD defaultBar).close

/-- The list of closes of a series (`data['Close']`). -/
def closes (data : List Bar) : List ℚ := data.map Bar.close

/-- The list of highs of a series (`data['High']`). -/
def highs (data : List Bar) : List ℚ := data.map Bar.high

/-- The list of lows of a series (`data['Low']`). -/
def lows (data : List Bar) : List ℚ := data.map Bar.low

/-- Mean of the last `period` entries of a list: the value of
`series.rolling(period).mean().iloc[-1]` when the list has at least
`period` entries. -/
def avgLast (period : ℕ) (l : List ℚ) : ℚ :=
  ((l.drop (l.length - period)).sum) / period

/-- `data['Close'].rolling(n).mean().iloc[-1]`. -/
def smaLast (n : ℕ) (data : List Bar) : ℚ := avgLast n (closes data)

/-- The four trend states of the classifier (the Python code uses the
strings "Uptrend", "Downtrend", "Sideways", "Insufficient Data"). -/
inductive TrendState where
  | Uptrend
  | Downtrend
  | Sideways
  | InsufficientData
  deriving DecidableEq, Repr

/-- `analyze_trend` from `advanced_trading_system.py` (lines 100-127).
`adx` is the trend-strength value the external `talib.ADX` call produced
(the source substitutes 25 when that call raises; either way the value
reaches this logic as a plain number, so it is a parameter here). -/
def analyze_trend (data : List Bar) (adx : ℚ) : TrendState × ℚ :=
  if data.length < 50 then (.InsufficientData, 0)
  else
    let sma_20 := smaLast 20 data
    let sma_50 := smaLast 50 data
    let current_price := lastClose data
    if current_price > sma_20 ∧ sma_20 > sma_50 then
      (.Uptrend, min adx 100)
    else if current_price < sma_20 ∧ sma_20 < sma_50 then
      (.Downtrend, min adx 100)
    else
      (.Sideways, if adx > 25 then max (25 - adx) 0 else 25)

/-- Maximum of the centered 5-bar window around index `i` of `l`
(`l.rolling(window=5, center=True).max()` at label `i`): the maximum of the
entries at indices `i-2 .. i+2`.  Only used at indices where the full window
exists, so the default for an empty slice never matters. -/
def windowMax (l : List ℚ) (i : ℕ) : ℚ := (((l.drop (i - 2)).take 5).max?).getD 0

/-- Minimum of the centered 5-bar window around index `i` of `l`. -/
def windowMin (l : List ℚ) (i : ℕ) : ℚ := (((l.drop (i - 2)).take 5).min?).getD 0

/-- The resistance candidates of `calculate_support_resistance`: the loop
`for i in range(2, len(data)-2)` appends `data['High'].iloc[i]` whenever it
equals the centered rolling maximum at `i`. -/
def resistance_candidates (data : List Bar) : List ℚ :=
  (List.range data.length).filterMap fun i =>
    if 2 ≤ i ∧ i + 2 < data.length ∧ (highs data).getD i 0 = windowMax (highs data) i
    then some ((highs data).getD i 0) else none

/-- The support candidates: `data['Low'].iloc[i]` whenever it equals the
centered rolling minimum at `i`, for `i` in `range(2, len(data)-2)`. -/
def support_candidates (data : List Bar) : List ℚ :=
  (List.range data.length).filterMap fun i =>
    if 2 ≤ i ∧ i + 2 < data.length ∧ (lows data).getD i 0 = windowMin (lows data) i
    then some ((lows data).getD i 0) else none

/-- `calculate_support_resistance` from `advanced_trading_system.py`
(lines 129-154).  Python's `sorted(list(set(xs)))` is the unique duplicate-free
ascending enumeration of the values of `xs`, embedded as
`insertionSort (≤)` of `dedup`; `reverse=True` is its reversal; `[:5]` is
`take 5`.  Returns `(support_levels, resistance_levels)`. -/
def calculate_support_resistance (data : List Bar) : List ℚ × List ℚ :=
  if data.length < 20 then ([], [])
  else
    ( ((support_candidates data).dedup.insertionSort (fun a b => a ≤ b)).take 5,
      (((resistance_candidates data).dedup.insertionSort (fun a b => a ≤ b)).reverse).take 5 )

/-- Direction tag of a trade plan (`'LONG'` / `'SHORT'` in the source). -/
inductive Direction where
  | LONG
  | SHORT
  deriving DecidableEq, Repr

/-- The dictionary returned by `generate_entry_exit_levels`: either a full
directional plan (keys `direction, entry, stop_loss, take_profit_1,
take_profit_2, risk_reward`) or the WAIT dictionary carrying only a message. -/
inductive Levels where
  | plan (direction : Direction)
      (entry stop_loss take_profit_1 take_profit_2 risk_reward : ℚ)
  | wait (message : String)
  deriving DecidableEq, Repr

/-- The `risk_reward` field of a directional plan, if any. -/
def Levels.riskReward? : Levels → Option ℚ
  | .plan _ _ _ _ _ rr => some rr
  | .wait _ => none

/-- `generate_entry_exit_levels` from `advanced_trading_system.py`
(lines 156-218).  `atrResult` is the outcome of the external
`talib.ATR(...).iloc[-1]` call wrapped in try/except: `some a` when it
produced the value `a`, `none` when it raised, in which case the source
falls back to 2% of the close (`atr = current_price * 0.02`).
The `risk_reward` division is written exactly as in the source; when the
denominator is zero the Python floats produce NaN/inf (division in ℚ yields
0 there — see the degenerate-case theorems below). -/
def generate_entry_exit_levels (data : List Bar) (trend : TrendState)
    (atrResult : Option ℚ) : Levels :=
  let current_price := lastClose data
  let atr := atrResult.getD (current_price * (2 / 100))
  let sr := calculate_support_resistance data
  let support_levels := sr.1
  let resistance_levels := sr.2
  match trend with
  | .Uptrend =>
      let entry_price := current_price
      let stop_loss := current_price - 2 * atr
      let take_profit_1 := current_price + 2 * atr
      let take_profit_2 := current_price + 4 * atr
      let take_profit_1 :=
        if resistance_levels ≠ [] then
          let nearest_resistance :=
            ((resistance_levels.filter (fun r => current_price < r)).min?).getD take_profit_1
          min take_profit_1 nearest_resistance
        else take_profit_1
      .plan .LONG entry_price stop_loss take_profit_1 take_profit_2
        ((take_profit_1 - entry_price) / (entry_price - stop_loss))
  | .Downtrend =>
      let entry_price := current_price
      let stop_loss := current_price + 2 * atr
      let take_profit_1 := current_price - 2 * atr
      let take_profit_2 := current_price - 4 * atr
      let take_profit_1 :=
        if support_levels ≠ [] then
          let nearest_support :=
            ((support_levels.filter (fun s => s < current_price)).max?).getD take_profit_1
          max take_profit_1 nearest_support
        else take_profit_1
      .plan .SHORT entry_price stop_loss take_profit_1 take_profit_2
        ((entry_price - take_profit_1) / (stop_loss - entry_price))
  | _ => .wait "No clear trend - wait for breakout"

/-- Modelled from the spec: the external `talib.ATR(high, low, close, 14)`
call is not part of this repository.  Spec section 4.1 defines
ATR(period=14) as the rolling mean of True Range, where
TR = max(high - low, |high - prev_close|, |low - prev_close|), and declares
the indicator undefined when the series has fewer than `period` bars
(the first bar, having no predecessor, contributes its plain range). -/
def trueRanges : List Bar → List ℚ
  | [] => []
  | b :: rest =>
      (b.high - b.low) ::
        (b :: rest).zipWith
          (fun prev cur =>
            max (cur.high - cur.low) (max |cur.high - prev.close| |cur.low - prev.close|))
          rest

/-- Modelled from the spec: ATR(14) at the last bar; `none` (undefined)
when the series has fewer than 14 bars, per spec section 4.1. -/
def atr14 (data : List Bar) : Option ℚ :=
  if data.length < 14 then none else some (avgLast 14 (trueRanges data))

/-- The level generator as called on a series: the ATR parameter is the
(spec-modelled) ATR(14) of the series, `none` triggering the source's
2%-of-close fallback. -/
def generate_levels_full (data : List Bar) (trend : TrendState) : Levels :=
  generate_entry_exit_levels data trend (atr14 data)

/-- Per-bar gains of `calculate_rsi` (`enhanced_backend.py` lines 83-88,
`quick_start.py` lines 117-122): `delta = prices.diff()` followed by
`delta.where(delta > 0, 0)`.  The first entry of `diff` is NaN, and
`NaN > 0` is false, so position 0 holds 0; position `i ≥ 1` holds
`max(close_i - close_(i-1), 0)`. -/
def gains : List ℚ → List ℚ
  | [] => []
  | c :: rest => 0 :: (c :: rest).zipWith (fun prev cur => max (cur - prev) 0) rest

/-- Per-bar losses of `calculate_rsi`: `(-delta.where(delta < 0, 0))`,
position 0 holds 0, position `i ≥ 1` holds `max(close_(i-1) - close_i, 0)`. -/
def losses : List ℚ → List ℚ
  | [] => []
  | c :: rest => 0 :: (c :: rest).zipWith (fun prev cur => max (prev - cur) 0) rest

/-- `calculate_rsi` evaluated at the last bar.  `avg_gain` and `avg_loss`
are the rolling means over `period` at the final index, defined once the
series has at least `period` bars.  The source computes
`100 - 100/(1 + avg_gain/avg_loss)` in IEEE floats: with `avg_loss = 0` and
`avg_gain > 0` the quotient is +inf and the result exactly 100 (modelled as
`some 100`); with both averages 0 the result is NaN (modelled as `none`). -/
def calculate_rsi_last (closes_ : List ℚ) (period : ℕ) : Option ℚ :=
  if closes_.length < period then none
  else
    let avg_gain := avgLast period (gains closes_)
    let avg_loss := avgLast period (losses closes_)
    if avg_loss = 0 then (if avg_gain = 0 then none else some 100)
    else some (100 - 100 / (1 + avg_gain / avg_loss))

/-- The dictionary returned by `calculate_risk_management`: either a message
(`'No position recommended'` for WAIT plans, `'Risk calculation unavailable'`
when no `stop_loss` key is present) or the numeric metrics. -/
inductive RiskResult where
  | message (msg : String)
  | metrics (account_size risk_per_trade risk_per_share : ℚ)
      (max_position_size : ℤ) (total_risk : ℚ)
  deriving DecidableEq, Repr

/-- `calculate_risk_management` from `advanced_trading_system.py`
(lines 266-287).  A directional plan always carries a `stop_loss` key, so the
`'stop_loss' in levels` test succeeds exactly on the `plan` constructor.
`int(position_size)` truncates toward zero; the quotient is nonnegative here,
so it is `Int.floor`.  The source divides by `risk_per_share` with no zero
check (in ℚ the division then yields 0; in the Python floats it yields inf,
and `int(inf)` raises OverflowError — see the C5 theorem). -/
def calculate_risk_management (current_price : ℚ) (levels : Levels) : RiskResult :=
  match levels with
  | .wait _ => .message "No position recommended"
  | .plan _ _ stop_loss _ _ _ =>
      let account_size : ℚ := 10000
      let risk_per_trade : ℚ := 2 / 100
      let risk_per_share := |current_price - stop_loss|
      let position_size := account_size * risk_per_trade / risk_per_share
      let max_shares := ⌊position_size⌋
      .metrics account_size risk_per_trade risk_per_share max_shares
        (max_shares * risk_per_share)

/-- Formalisation of claim C7's selection rule, from the claim's words (not
from the source): "resistance levels descending starting from the nearest
candidate above the current price" — the 5 smallest distinct candidates
strictly above the current price, listed in descending order. -/
def claimed_relevant_resistance (current_price : ℚ) (cands : List ℚ) : List ℚ :=
  ((((cands.dedup.filter (fun r => current_price < r)).insertionSort
      (fun a b => a ≤ b)).take 5).reverse)

/-! ### Concrete series used by witnesses and counterexamples -/

/-- 50 bars with strictly increasing closes 0,1,...,49: classified Uptrend. -/
def upData : List Bar := (List.range 50).map fun i => ⟨(i : ℚ), (i : ℚ), (i : ℚ), (i : ℚ), 0⟩

/-- 50 identical bars: SMA(20) = SMA(50) = close, classified Sideways. -/
def flatData50 : List Bar := List.replicate 50 (⟨100, 100, 100, 100, 0⟩ : Bar)

/-! ### C1: Trend Classifier contract -/

/-- **C1.** Trend Classifier contract: a series of fewer than 50 bars yields
InsufficientData; for a series of at least 50 bars the result is Uptrend
exactly when close > SMA(20) > SMA(50) and Downtrend exactly when
close < SMA(20) < SMA(50), each with strength `min adx 100`, and otherwise
Sideways with strength `max (25 - adx) 0` when `adx > 25` and `25` otherwise. -/
theorem trend_classifier_contract (data : List Bar) (adx : ℚ) :
    (data.length < 50 → analyze_trend data adx = (.InsufficientData, 0)) ∧
    (50 ≤ data.length →
      ((analyze_trend data adx).1 = .Uptrend ↔
        lastClose data > smaLast 20 data ∧ smaLast 20 data > smaLast 50 data) ∧
      ((analyze_trend data adx).1 = .Downtrend ↔
        lastClose data < smaLast 20 data ∧ smaLast 20 data < smaLast 50 data) ∧
      (((analyze_trend data adx).1 = .Uptrend ∨ (analyze_trend data adx).1 = .Downtrend) →
        (analyze_trend data adx).2 = min adx 100) ∧
      ((analyze_trend data adx).1 = .Sideways →
        (analyze_trend data adx).2 = if adx > 25 then max (25 - adx) 0 else 25) ∧
      ((analyze_trend data adx).1 = .Sideways ↔
        ¬(lastClose data > smaLast 20 data ∧ smaLast 20 data > smaLast 50 data) ∧
        ¬(lastClose data < smaLast 20 data ∧ smaLast 20 data < smaLast 50 data))) := by
  refine ⟨fun h => by simp [analyze_trend, h], fun h50 => ?_⟩
  have hn : ¬ data.length < 50 := not_lt.2 h50
  by_cases h1 : lastClose data > smaLast 20 data ∧ smaLast 20 data > smaLast 50 data
  · have hval : analyze_trend data adx = (.Uptrend, min adx 100) := by
      simp [analyze_trend, hn, h1]
    have hnot2 : ¬(lastClose data < smaLast 20 data ∧ smaLast 20 data < smaLast 50 data) :=
      fun hc => absurd hc.1 (not_lt.2 (le_of_lt h1.1))
    rw [hval]
    exact ⟨by simp [h1], by simp [hnot2], by simp, by simp, by simp [h1]⟩
  · by_cases h2 : lastClose data < smaLast 20 data ∧ smaLast 20 data < smaLast 50 data
    · have hval : analyze_trend data adx = (.Downtrend, min adx 100) := by
        simp [analyze_trend, hn, h1, h2]
      rw [hval]
      exact ⟨by simp [h1], by simp [h2], by simp, by simp, by simp [h1, h2]⟩
    · have hval : analyze_trend data adx =
          (.Sideways, if adx > 25 then max (25 - adx) 0 else 25) := by
        simp [analyze_trend, hn, h1, h2]
      rw [hval]
      exact ⟨by simp [h1], by simp [h2], by simp, by simp, by simp [h1, h2]⟩

/-- Witness for C1 at a concrete input: the 50-bar strictly rising series is
classified Uptrend (via the contract's iff) and the 3-bar series is
InsufficientData. -/
theorem trend_classifier_contract_witness :
    (analyze_trend upData 30).1 = .Uptrend ∧
      analyze_trend (upData.take 3) 30 = (.InsufficientData, 0) :=
  ⟨((trend_classifier_contract upData 30).2 (by decide)).1.mpr
      (by norm_num [upData, lastClose, smaLast, avgLast, closes, defaultBar, List.range_succ]),
    (trend_classifier_contract (upData.take 3) 30).1 (by decide)⟩

/-! ### Pivot detector: shared sorting lemmas -/

/-- The ascending duplicate-free enumeration `sorted(list(set(xs)))` is
strictly increasing. -/
theorem sortedDedupLt (l : List ℚ) :
    (l.dedup.insertionSort (fun a b => a ≤ b)).Pairwise (· < ·) := by
  have hs : (l.dedup.insertionSort (fun a b => a ≤ b)).Pairwise (fun a b => a ≤ b) :=
    List.sorted_insertionSort (fun a b : ℚ => a ≤ b) l.dedup
  have hn : (l.dedup.insertionSort (fun a b => a ≤ b)).Pairwise (· ≠ ·) :=
    (List.perm_insertionSort (fun a b : ℚ => a ≤ b) l.dedup).nodup_iff.mpr (List.nodup_dedup l)
  exact (hs.and hn).imp fun h => lt_of_le_of_ne h.1 h.2

/-- In a list whose elements are pairwise related in order, every element of
the `take n` prefix is related to every member that is not in the prefix. -/
theorem pairwise_take_cross {α : Type} {R : α → α → Prop} {D : List α} (n : ℕ)
    (h : D.Pairwise R) {r c : α} (hr : r ∈ D.take n) (hc : c ∈ D) (hnot : c ∉ D.take n) :
    R r c := by
  have hsplit := List.take_append_drop n D
  rw [← hsplit] at h hc
  rcases List.mem_append.1 hc with h1 | h2
  · exact absurd h1 hnot
  · exact (List.pairwise_append.1 h).2.2 r hr c h2

/-! ### C6: Pivot Detector shape -/

/-- **C6.** A series shorter than 20 bars yields empty support and resistance
lists; otherwise at most 5 levels per side are returned, resistance strictly
descending and support strictly ascending (so in particular duplicate-free). -/
theorem pivot_detector_shape (data : List Bar) :
    (data.length < 20 → calculate_support_resistance data = ([], [])) ∧
    (calculate_support_resistance data).1.length ≤ 5 ∧
    (calculate_support_resistance data).2.length ≤ 5 ∧
    (calculate_support_resistance data).1.Sorted (· < ·) ∧
    (calculate_support_resistance data).2.Sorted (· > ·) := by
  refine ⟨fun h => by simp [calculate_support_resistance, h], ?_, ?_, ?_, ?_⟩ <;>
    by_cases h : data.length < 20
  · simp [calculate_support_resistance, h]
  · simp [calculate_support_resistance, h]
  · simp [calculate_support_resistance, h]
  · simp [calculate_support_resistance, h]
  · simp [calculate_support_resistance, h, List.Sorted]
  · have : (calculate_support_resistance data).1 =
        ((support_candidates data).dedup.insertionSort (fun a b => a ≤ b)).take 5 := by
      simp [calculate_support_resistance, h]
    rw [this]
    exact List.Pairwise.sublist (List.take_sublist 5 _) (sortedDedupLt _)
  · simp [calculate_support_resistance, h, List.Sorted]
  · have : (calculate_support_resistance data).2 =
        (((resistance_candidates data).dedup.insertionSort (fun a b => a ≤ b)).reverse).take 5 := by
      simp [calculate_support_resistance, h]
    rw [this]
    exact List.Pairwise.sublist (List.take_sublist 5 _)
      (List.pairwise_reverse.2 (sortedDedupLt _))

/-- Witness for C6: a 3-bar series yields empty levels. -/
theorem pivot_detector_shape_witness :
    calculate_support_resistance (flatData50.take 3) = ([], []) :=
  (pivot_detector_shape (flatData50.take 3)).1 (by decide)

/-! ### C7: Pivot relevance cap.
The source keeps the 5 *largest* distinct resistance values and the 5
*smallest* distinct support values; it never consults the current price, so
the claim's "nearest candidate above the current price" selection fails. -/

/-- A 20-bar series: baseline highs 1 with local spikes 10,11,12,13,14,15 at
indices 2,5,8,11,14,17, constant lows 1, all closes 1/2 (below every
resistance candidate). -/
def c7bar (h : ℚ) : Bar := ⟨1, h, 1, 1/2, 0⟩

/-- 20-bar series with six distinct resistance candidates 10..15 and
current price 1/2. -/
def c7data : List Bar :=
  [c7bar 1, c7bar 1, c7bar 10, c7bar 1, c7bar 1, c7bar 11, c7bar 1, c7bar 1,
   c7bar 12, c7bar 1, c7bar 1, c7bar 13, c7bar 1, c7bar 1, c7bar 14, c7bar 1,
   c7bar 1, c7bar 15, c7bar 1, c7bar 1]

/-- **C7 counterexample.** On `c7data` the six distinct candidates are
10..15, all above the current price 1/2; the code keeps the five largest,
`[15,14,13,12,11]`, while the claim's rule (descending from the nearest
candidate above the current price) keeps `[14,13,12,11,10]`.  In particular
the nearest candidate above the price, 10, is dropped. -/
theorem pivot_relevance_counterexample :
    (calculate_support_resistance c7data).2 = [15, 14, 13, 12, 11] ∧
    claimed_relevant_resistance (lastClose c7data) (resistance_candidates c7data) =
      [14, 13, 12, 11, 10] ∧
    (calculate_support_resistance c7data).2 ≠
      claimed_relevant_resistance (lastClose c7data) (resistance_candidates c7data) := by
  have hcands : resistance_candidates c7data = [10, 11, 12, 13, 14, 15] := by
    norm_num [resistance_candidates, c7data, c7bar, highs, windowMax, List.range_succ,
      List.filterMap_cons, List.max?, List.foldl, max_def]
  have hlast : lastClose c7data = 1 / 2 := by
    norm_num [lastClose, c7data, c7bar, defaultBar]
  have h1 : (calculate_support_resistance c7data).2 = [15, 14, 13, 12, 11] := by
    norm_num [calculate_support_resistance, c7data, c7bar, resistance_candidates,
      support_candidates, highs, lows, windowMax, windowMin, List.range_succ,
      List.insertionSort, List.orderedInsert, List.dedup]
  have h2 : claimed_relevant_resistance (lastClose c7data) (resistance_candidates c7data) =
      [14, 13, 12, 11, 10] := by
    rw [hcands, hlast]
    norm_num [claimed_relevant_resistance, List.insertionSort, List.orderedInsert, List.dedup]
  exact ⟨h1, h2, by rw [h1, h2]; norm_num⟩

/-- **C7 amended.** The 5 levels kept per side are selected by value only,
ignoring the current price: every resistance candidate not kept is strictly
below every kept resistance level (the code keeps the 5 largest), and every
support candidate not kept is strictly above every kept support level (the
code keeps the 5 smallest). -/
theorem pivot_top5_by_value (data : List Bar) :
    (∀ r ∈ (calculate_support_resistance data).2, ∀ c ∈ resistance_candidates data,
      c ∉ (calculate_support_resistance data).2 → c < r) ∧
    (∀ s ∈ (calculate_support_resistance data).1, ∀ c ∈ support_candidates data,
      c ∉ (calculate_support_resistance data).1 → s < c) := by
  by_cases h : data.length < 20
  · simp [calculate_support_resistance, h]
  · have hres : (calculate_support_resistance data).2 =
        (((resistance_candidates data).dedup.insertionSort (fun a b => a ≤ b)).reverse).take 5 := by
      simp [calculate_support_resistance, h]
    have hsup : (calculate_support_resistance data).1 =
        ((support_candidates data).dedup.insertionSort (fun a b => a ≤ b)).take 5 := by
      simp [calculate_support_resistance, h]
    constructor
    · intro r hr c hc hnot
      rw [hres] at hr hnot
      refine pairwise_take_cross 5 (List.pairwise_reverse.2 (sortedDedupLt _)) hr ?_ hnot
      rw [List.mem_reverse, List.mem_insertionSort, List.mem_dedup]
      exact hc
    · intro s hs c hc hnot
      rw [hsup] at hs hnot
      refine pairwise_take_cross 5 (sortedDedupLt _) hs ?_ hnot
      rw [List.mem_insertionSort, List.mem_dedup]
      exact hc

/-- Witness for C7's amended theorem: on `c7data`, 10 is a resistance
candidate that is not kept, 11 is kept, and the theorem yields 10 < 11. -/
theorem pivot_top5_by_value_witness :
    (10 : ℚ) ∈ resistance_candidates c7data ∧
    (10 : ℚ) ∉ (calculate_support_resistance c7data).2 ∧
    (11 : ℚ) ∈ (calculate_support_resistance c7data).2 ∧ (10 : ℚ) < 11 := by
  have hres : (calculate_support_resistance c7data).2 = [15, 14, 13, 12, 11] := by
    norm_num [calculate_support_resistance, c7data, c7bar, resistance_candidates,
      support_candidates, highs, lows, windowMax, windowMin, List.range_succ,
      List.insertionSort, List.orderedInsert, List.dedup]
  have hcand : (10 : ℚ) ∈ resistance_candidates c7data := by
    have hcands : resistance_candidates c7data = [10, 11, 12, 13, 14, 15] := by
      norm_num [resistance_candidates, c7data, c7bar, highs, windowMax, List.range_succ,
        List.filterMap_cons, List.max?, List.foldl, max_def]
    rw [hcands]
    norm_num
  have hnot : (10 : ℚ) ∉ (calculate_support_resistance c7data).2 := by
    rw [hres]; norm_num
  refine ⟨hcand, hnot, by rw [hres]; norm_num, ?_⟩
  exact (pivot_top5_by_value c7data).1 11 (by rw [hres]; norm_num) 10 hcand hnot

/-! ### Level Generator: closed forms of the two directional branches -/

/-- Closed form of the Uptrend branch of `generate_entry_exit_levels`: the
near target is the 2·ATR target, min-clamped against the nearest resistance
above the close (when the resistance list is empty the clamp is the identity,
exactly as in the source where the `if resistance_levels:` block is skipped). -/
theorem gen_up_eq (data : List Bar) (atrRes : Option ℚ) (a : ℚ)
    (hA : atrRes.getD (lastClose data * (2 / 100)) = a) :
    generate_entry_exit_levels data .Uptrend atrRes =
      .plan .LONG (lastClose data) (lastClose data - 2 * a)
        (min (lastClose data + 2 * a)
          ((((calculate_support_resistance data).2.filter
              (fun r => lastClose data < r)).min?).getD (lastClose data + 2 * a)))
        (lastClose data + 4 * a)
        ((min (lastClose data + 2 * a)
            ((((calculate_support_resistance data).2.filter
                (fun r => lastClose data < r)).min?).getD (lastClose data + 2 * a)) -
            lastClose data) /
          (lastClose data - (lastClose data - 2 * a))) := by
  subst hA
  by_cases hres : (calculate_support_resistance data).2 = []
  · simp [generate_entry_exit_levels, hres]
  · simp [generate_entry_exit_levels, hres]

/-- Closed form of the Downtrend branch of `generate_entry_exit_levels`. -/
theorem gen_down_eq (data : List Bar) (atrRes : Option ℚ) (a : ℚ)
    (hA : atrRes.getD (lastClose data * (2 / 100)) = a) :
    generate_entry_exit_levels data .Downtrend atrRes =
      .plan .SHORT (lastClose data) (lastClose data + 2 * a)
        (max (lastClose data - 2 * a)
          ((((calculate_support_resistance data).1.filter
              (fun s => s < lastClose data)).max?).getD (lastClose data - 2 * a)))
        (lastClose data - 4 * a)
        ((lastClose data -
            max (lastClose data - 2 * a)
              ((((calculate_support_resistance data).1.filter
                  (fun s => s < lastClose data)).max?).getD (lastClose data - 2 * a))) /
          (lastClose data + 2 * a - lastClose data)) := by
  subst hA
  by_cases hsup : (calculate_support_resistance data).1 = []
  · simp [generate_entry_exit_levels, hsup]
  · simp [generate_entry_exit_levels, hsup]

/-- The min-clamped Long near target lies strictly above the close. -/
theorem up_target_above (data : List Bar) (a : ℚ) (ha : 0 < a) :
    lastClose data <
      min (lastClose data + 2 * a)
        ((((calculate_support_resistance data).2.filter
            (fun r => lastClose data < r)).min?).getD (lastClose data + 2 * a)) := by
  rcases hmin : ((calculate_support_resistance data).2.filter
      (fun r => lastClose data < r)).min? with _ | m
  · simp only [Option.getD_none]
    rw [min_self]
    linarith
  · have hm := List.min?_mem (fun x y => min_choice x y) hmin
    have hcm : lastClose data < m := by
      have := (List.mem_filter.1 hm).2
      simpa using this
    simp only [Option.getD_some]
    exact lt_min (by linarith) hcm

/-- The max-clamped Short near target lies strictly below the close. -/
theorem down_target_below (data : List Bar) (a : ℚ) (ha : 0 < a) :
    max (lastClose data - 2 * a)
        ((((calculate_support_resistance data).1.filter
            (fun s => s < lastClose data)).max?).getD (lastClose data - 2 * a)) <
      lastClose data := by
  rcases hmax : ((calculate_support_resistance data).1.filter
      (fun s => s < lastClose data)).max? with _ | m
  · simp only [Option.getD_none]
    rw [max_self]
    linarith
  · have hm := List.max?_mem (fun x y => max_choice x y) hmax
    have hcm : m < lastClose data := by
      have := (List.mem_filter.1 hm).2
      simpa using this
    simp only [Option.getD_some]
    exact max_lt (by linarith) hcm

/-! ### C2: Level Generator ordering invariant -/

/-- Claim C2's contract for the Long plan, stated from the claim's words:
entry = close, stop = close - 2·ATR, far target = close + 4·ATR, near target
= close + 2·ATR clamped downward to the nearest resistance above the close
when one exists (never upward), and the ordering
stop_loss < entry ≤ take_profit_near ≤ take_profit_far. -/
def LongPlanSpec (data : List Bar) (a : ℚ) : Prop :=
  ∃ tp1,
    generate_entry_exit_levels data .Uptrend (some a) =
      .plan .LONG (lastClose data) (lastClose data - 2 * a) tp1 (lastClose data + 4 * a)
        ((tp1 - lastClose data) / (lastClose data - (lastClose data - 2 * a))) ∧
    tp1 = min (lastClose data + 2 * a)
        ((((calculate_support_resistance data).2.filter
            (fun r => lastClose data < r)).min?).getD (lastClose data + 2 * a)) ∧
    lastClose data - 2 * a < lastClose data ∧
    lastClose data < tp1 ∧
    tp1 ≤ lastClose data + 2 * a ∧
    lastClose data + 2 * a ≤ lastClose data + 4 * a

/-- Claim C2's mirrored contract for the Short plan. -/
def ShortPlanSpec (data : List Bar) (a : ℚ) : Prop :=
  ∃ tp1,
    generate_entry_exit_levels data .Downtrend (some a) =
      .plan .SHORT (lastClose data) (lastClose data + 2 * a) tp1 (lastClose data - 4 * a)
        ((lastClose data - tp1) / (lastClose data + 2 * a - lastClose data)) ∧
    tp1 = max (lastClose data - 2 * a)
        ((((calculate_support_resistance data).1.filter
            (fun s => s < lastClose data)).max?).getD (lastClose data - 2 * a)) ∧
    lastClose data < lastClose data + 2 * a ∧
    tp1 < lastClose data ∧
    lastClose data - 2 * a ≤ tp1 ∧
    lastClose data - 4 * a ≤ lastClose data - 2 * a

/-- **C2.** For every series and every positive ATR value, the Uptrend branch
produces the Long plan of `LongPlanSpec` — with
stop_loss < entry < take_profit_near ≤ take_profit_far and the near target
clamped only downward — and the Downtrend branch the mirrored Short plan. -/
theorem level_generator_ordering (data : List Bar) (a : ℚ) (ha : 0 < a) :
    LongPlanSpec data a ∧ ShortPlanSpec data a := by
  constructor
  · exact ⟨_, gen_up_eq data (some a) a rfl, rfl,
      by linarith, up_target_above data a ha, min_le_left _ _, by linarith⟩
  · exact ⟨_, gen_down_eq data (some a) a rfl, rfl,
      by linarith, down_target_below data a ha, le_max_left _ _, by linarith⟩

/-- Witness for C2 at a concrete input: the 3-bar prefix of the rising
series with ATR 1. -/
theorem level_generator_ordering_witness :
    LongPlanSpec (upData.take 3) 1 ∧ ShortPlanSpec (upData.take 3) 1 :=
  level_generator_ordering (upData.take 3) 1 (by norm_num)

/-! ### C9: risk/reward never exceeds 1 -/

/-- **C9.** Any directional plan produced with a positive resolved ATR has
risk_reward at most 1: the near target is only ever clamped toward the entry,
so the reward distance never exceeds the 2·ATR risk distance. -/
theorem risk_reward_le_one (data : List Bar) (atrRes : Option ℚ) (trend : TrendState)
    (ha : 0 < atrRes.getD (lastClose data * (2 / 100)))
    (hdir : trend = .Uptrend ∨ trend = .Downtrend) (rr : ℚ)
    (hrr : (generate_entry_exit_levels data trend atrRes).riskReward? = some rr) :
    rr ≤ 1 := by
  rcases hdir with rfl | rfl
  · rw [gen_up_eq data atrRes _ rfl] at hrr
    simp only [Levels.riskReward?, Option.some.injEq] at hrr
    subst hrr
    rw [div_le_one (by linarith)]
    have := min_le_left (lastClose data + 2 * atrRes.getD (lastClose data * (2 / 100)))
      ((((calculate_support_resistance data).2.filter
          (fun r => lastClose data < r)).min?).getD
        (lastClose data + 2 * atrRes.getD (lastClose data * (2 / 100))))
    linarith
  · rw [gen_down_eq data atrRes _ rfl] at hrr
    simp only [Levels.riskReward?, Option.some.injEq] at hrr
    subst hrr
    rw [div_le_one (by linarith)]
    have := le_max_left (lastClose data - 2 * atrRes.getD (lastClose data * (2 / 100)))
      ((((calculate_support_resistance data).1.filter
          (fun s => s < lastClose data)).max?).getD
        (lastClose data - 2 * atrRes.getD (lastClose data * (2 / 100))))
    linarith

/-- Witness for C9: the concrete Long plan on the 3-bar rising prefix with
ATR 1 has risk_reward at most 1. -/
theorem risk_reward_le_one_witness :
    ∃ rr, (generate_entry_exit_levels (upData.take 3) .Uptrend (some 1)).riskReward? = some rr ∧
      rr ≤ 1 := by
  have h1 : (generate_entry_exit_levels (upData.take 3) .Uptrend (some 1)).riskReward? =
      some ((min (lastClose (upData.take 3) + 2 * 1)
          ((((calculate_support_resistance (upData.take 3)).2.filter
              (fun r => lastClose (upData.take 3) < r)).min?).getD
            (lastClose (upData.take 3) + 2 * 1)) - lastClose (upData.take 3)) /
        (lastClose (upData.take 3) - (lastClose (upData.take 3) - 2 * 1))) := by
    rw [gen_up_eq (upData.take 3) (some 1) 1 rfl]
    rfl
  exact ⟨_, h1, risk_reward_le_one (upData.take 3) (some 1) .Uptrend (by norm_num)
    (Or.inl rfl) _ h1⟩

/-! ### C8: ATR fallback for short series -/

/-- A series shorter than 20 bars yields empty pivot lists (shared helper). -/
theorem sr_short {data : List Bar} (h : data.length < 20) :
    calculate_support_resistance data = ([], []) := by
  simp [calculate_support_resistance, h]

/-- **C8.** For every nonempty series of fewer than 14 bars the (spec-modelled)
ATR(14) is undefined, and the Level Generator falls back to 2% of the close,
still producing a complete directional plan with every numeric field defined
(the pivot lists are empty for such short series, so no clamping occurs). -/
theorem atr_fallback_complete_plan (data : List Bar) (_hne : data ≠ [])
    (hlen : data.length < 14) :
    atr14 data = none ∧
    generate_levels_full data .Uptrend =
      .plan .LONG (lastClose data) (lastClose data - 2 * (lastClose data * (2 / 100)))
        (lastClose data + 2 * (lastClose data * (2 / 100)))
        (lastClose data + 4 * (lastClose data * (2 / 100)))
        ((lastClose data + 2 * (lastClose data * (2 / 100)) - lastClose data) /
          (lastClose data - (lastClose data - 2 * (lastClose data * (2 / 100))))) ∧
    generate_levels_full data .Downtrend =
      .plan .SHORT (lastClose data) (lastClose data + 2 * (lastClose data * (2 / 100)))
        (lastClose data - 2 * (lastClose data * (2 / 100)))
        (lastClose data - 4 * (lastClose data * (2 / 100)))
        ((lastClose data - (lastClose data - 2 * (lastClose data * (2 / 100)))) /
          (lastClose data + 2 * (lastClose data * (2 / 100)) - lastClose data)) := by
  have hatr : atr14 data = none := by simp [atr14, hlen]
  have hsr : calculate_support_resistance data = ([], []) := sr_short (by omega)
  refine ⟨hatr, ?_, ?_⟩
  · rw [generate_levels_full, hatr, gen_up_eq data none (lastClose data * (2 / 100)) rfl]
    simp [hsr]
  · rw [generate_levels_full, hatr, gen_down_eq data none (lastClose data * (2 / 100)) rfl]
    simp [hsr]

/-- Witness for C8: the 3-bar rising prefix (closes 0,1,2; close 2, fallback
ATR 2% of 2 = 1/25). -/
theorem atr_fallback_complete_plan_witness :
    atr14 (upData.take 3) = none ∧
    generate_levels_full (upData.take 3) .Uptrend =
      .plan .LONG (lastClose (upData.take 3))
        (lastClose (upData.take 3) - 2 * (lastClose (upData.take 3) * (2 / 100)))
        (lastClose (upData.take 3) + 2 * (lastClose (upData.take 3) * (2 / 100)))
        (lastClose (upData.take 3) + 4 * (lastClose (upData.take 3) * (2 / 100)))
        ((lastClose (upData.take 3) + 2 * (lastClose (upData.take 3) * (2 / 100)) -
            lastClose (upData.take 3)) /
          (lastClose (upData.take 3) -
            (lastClose (upData.take 3) - 2 * (lastClose (upData.take 3) * (2 / 100))))) :=
  ⟨(atr_fallback_complete_plan (upData.take 3) (by decide) (by decide)).1,
    (atr_fallback_complete_plan (upData.take 3) (by decide) (by decide)).2.1⟩

/-! ### C3: RSI range and boundary -/

/-- Every entry of a `zipWith` of a nonnegative-valued function is
nonnegative. -/
theorem zipWith_nonneg {α : Type} {f : α → α → ℚ} (hf : ∀ a b, 0 ≤ f a b) :
    ∀ (l1 l2 : List α), ∀ x ∈ List.zipWith f l1 l2, 0 ≤ x := by
  intro l1
  induction l1 with
  | nil => simp
  | cons a t ih =>
      intro l2
      cases l2 with
      | nil => simp
      | cons b t2 =>
          intro x hx
          rcases List.mem_cons.1 hx with rfl | h
          · exact hf a b
          · exact ih t2 x h

/-- Every entry of the per-bar gain series is nonnegative. -/
theorem gains_nonneg (closes_ : List ℚ) : ∀ x ∈ gains closes_, 0 ≤ x := by
  cases closes_ with
  | nil => simp [gains]
  | cons c rest =>
      intro x hx
      rcases List.mem_cons.1 hx with rfl | h
      · exact le_refl 0
      · exact zipWith_nonneg (fun a b => le_max_right _ _) _ _ x h

/-- Every entry of the per-bar loss series is nonnegative. -/
theorem losses_nonneg (closes_ : List ℚ) : ∀ x ∈ losses closes_, 0 ≤ x := by
  cases closes_ with
  | nil => simp [losses]
  | cons c rest =>
      intro x hx
      rcases List.mem_cons.1 hx with rfl | h
      · exact le_refl 0
      · exact zipWith_nonneg (fun a b => le_max_right _ _) _ _ x h

/-- The rolling mean of a nonnegative list is nonnegative. -/
theorem avgLast_nonneg {l : List ℚ} (h : ∀ x ∈ l, 0 ≤ x) (period : ℕ) :
    0 ≤ avgLast period l :=
  div_nonneg (List.sum_nonneg fun x hx => h x ((List.drop_sublist _ _).subset hx))
    (by positivity)

/-- **C3.** For every price series of at least `period + 1` bars whose rolling
average gain and loss are not both zero, the RSI value at the last bar is
defined and lies in [0, 100], and equals 100 exactly when the average loss is
zero and the average gain positive. -/
theorem rsi_range_boundary (closes_ : List ℚ) (period : ℕ)
    (hlen : period + 1 ≤ closes_.length)
    (hnd : ¬(avgLast period (gains closes_) = 0 ∧ avgLast period (losses closes_) = 0)) :
    ∃ r, calculate_rsi_last closes_ period = some r ∧ 0 ≤ r ∧ r ≤ 100 ∧
      (r = 100 ↔ avgLast period (losses closes_) = 0 ∧ 0 < avgLast period (gains closes_)) := by
  have hnlt : ¬ closes_.length < period := by omega
  have hg0 : 0 ≤ avgLast period (gains closes_) := avgLast_nonneg (gains_nonneg _) _
  have hl0 : 0 ≤ avgLast period (losses closes_) := avgLast_nonneg (losses_nonneg _) _
  by_cases hl : avgLast period (losses closes_) = 0
  · have hgne : avgLast period (gains closes_) ≠ 0 := fun h => hnd ⟨h, hl⟩
    have hgpos : 0 < avgLast period (gains closes_) := lt_of_le_of_ne hg0 (Ne.symm hgne)
    refine ⟨100, ?_, by norm_num, le_refl _, by simp [hl, hgpos]⟩
    simp only [calculate_rsi_last, if_neg hnlt, if_pos hl, if_neg hgne]
  · have hlpos : 0 < avgLast period (losses closes_) := lt_of_le_of_ne hl0 (Ne.symm hl)
    have hrs : 0 ≤ avgLast period (gains closes_) / avgLast period (losses closes_) :=
      div_nonneg hg0 hl0
    have hd : (0 : ℚ) < 1 + avgLast period (gains closes_) / avgLast period (losses closes_) := by
      linarith
    have hfrac_pos :
        0 < 100 / (1 + avgLast period (gains closes_) / avgLast period (losses closes_)) := by
      positivity
    have hfrac_le :
        100 / (1 + avgLast period (gains closes_) / avgLast period (losses closes_)) ≤ 100 := by
      rw [div_le_iff₀ hd]
      nlinarith
    refine ⟨100 - 100 / (1 + avgLast period (gains closes_) / avgLast period (losses closes_)),
      ?_, by linarith, by linarith, ?_⟩
    · simp only [calculate_rsi_last, if_neg hnlt, if_neg hl]
    · constructor
      · intro h100
        exfalso
        have : 100 / (1 + avgLast period (gains closes_) / avgLast period (losses closes_)) = 0 := by
          linarith
        rw [this] at hfrac_pos
        exact lt_irrefl 0 hfrac_pos
      · rintro ⟨hl2, _⟩
        exact absurd hl2 hl

/-- The 15 strictly increasing closes 0,1,...,14: all gains positive, all
losses zero, RSI exactly 100. -/
def c3closes : List ℚ := (List.range 15).map fun i => (i : ℚ)

/-- Witness for C3: on 15 strictly rising closes the RSI at the last bar is
defined, in range, and equal to 100. -/
theorem rsi_range_boundary_witness :
    ∃ r, calculate_rsi_last c3closes 14 = some r ∧ 0 ≤ r ∧ r ≤ 100 ∧
      (r = 100 ↔ avgLast 14 (losses c3closes) = 0 ∧ 0 < avgLast 14 (gains c3closes)) :=
  rsi_range_boundary c3closes 14 (by decide)
    (by norm_num [c3closes, gains, losses, avgLast, List.range_succ, List.zipWith])

/-! ### C4: degenerate risk/reward (code bug) -/

/-- 20 identical bars at price 100: every true range is 0, so ATR(14) is 0
and the generated Long plan has entry = stop_loss. -/
def flatData20 : List Bar := List.replicate 20 (⟨100, 100, 100, 100, 0⟩ : Bar)

/-- **C4 (code bug).** On a 20-bar constant series the ATR degenerates to 0
and entry = stop_loss = 100, yet the generator still takes the directional
branch and computes `risk_reward = (tp1 - entry) / (entry - stop_loss)` with
a zero denominator — there is no "unavailable" representation in the code.
In ℚ the quotient is 0; in the source's IEEE floats `0.0/0.0` is NaN, which
is silently stored in the returned dictionary, contradicting the claim that
the division is not performed. -/
theorem risk_reward_degenerate_division :
    atr14 flatData20 = some 0 ∧
    generate_levels_full flatData20 .Uptrend =
      .plan .LONG 100 100 100 100 ((100 - 100) / (100 - 100)) := by
  constructor
  · norm_num [atr14, flatData20, trueRanges, avgLast, List.replicate, List.zipWith]
  · norm_num [generate_levels_full, generate_entry_exit_levels, atr14, flatData20,
      trueRanges, avgLast, lastClose, defaultBar, calculate_support_resistance,
      resistance_candidates, support_candidates, highs, lows, windowMax, windowMin,
      List.range_succ, List.insertionSort, List.orderedInsert, List.dedup,
      List.replicate, List.zipWith]

/-! ### C5: Risk Sizer zero-risk guard (code bug) -/

/-- **C5 (code bug).** The Wait half of the claim holds: a WAIT plan yields
the explicit "No position recommended" message.  The zero-risk half fails:
for a directional plan whose stop equals the current price the source
performs `position_size = 200 / risk_per_share` with `risk_per_share = 0`
and returns the numeric metrics dictionary — it has no zero check.  (In ℚ
the quotient is 0; in the source's IEEE floats it is `inf`, and
`int(inf)` raises OverflowError — either way no "no position / unavailable"
result is produced.) -/
theorem risk_sizer_zero_risk_numeric :
    calculate_risk_management 100 (.wait "No clear trend - wait for breakout") =
      .message "No position recommended" ∧
    calculate_risk_management 100 (.plan .LONG 100 100 102 104 1) =
      .metrics 10000 (2 / 100) 0 0 0 := by
  constructor
  · rfl
  · norm_num [calculate_risk_management]

/-! ### C10: Sideways strength values -/

/-- **C10.** For every series of at least 50 bars classified Sideways, the
returned strength is exactly 0 when the trend-strength input exceeds 25 and
exactly 25 otherwise. -/
theorem sideways_strength_values (data : List Bar) (adx : ℚ)
    (h50 : 50 ≤ data.length) (hs : (analyze_trend data adx).1 = .Sideways) :
    (analyze_trend data adx).2 = if adx > 25 then 0 else 25 := by
  have hn : ¬ data.length < 50 := not_lt.2 h50
  by_cases h1 : lastClose data > smaLast 20 data ∧ smaLast 20 data > smaLast 50 data
  · simp [analyze_trend, hn, h1] at hs
  · by_cases h2 : lastClose data < smaLast 20 data ∧ smaLast 20 data < smaLast 50 data
    · simp [analyze_trend, hn, h1, h2] at hs
    · simp only [analyze_trend, if_neg hn, if_neg h1, if_neg h2]
      split_ifs with h
      · exact max_eq_right (by linarith)
      · rfl

/-- Witness for C10: the 50-bar flat series is Sideways and reports strength
0 at trend-strength 30 (which is `> 25`). -/
theorem sideways_strength_values_witness :
    (analyze_trend flatData50 30).2 = 0 := by
  have h := sideways_strength_values flatData50 30 (by decide)
    (by norm_num [analyze_trend, flatData50, lastClose, smaLast, avgLast, closes, defaultBar])
  rw [h]
  norm_num

end TradingAdvisor
